import Mathlib

/-!
Verification of the mijia sensor dashboard server (`src/server/main.go`).

The Go program reads, for each configured sensor, the most recent row of its
SQLite log, derives dew point, absolute humidity, a battery icon and a
relative-freshness label, sorts the per-device records by MAC address and
renders them.  Below, the arithmetic on Go `float64` values is embedded as
real arithmetic (`ℝ`, with `Real.log`/`Real.exp` for `math.Log`/`math.Exp`),
Go integer division as `Int.tdiv` (Go `/` truncates toward zero), and the
per-request handler `loadSensorData` as a function of the fetched rows.
-/

namespace Mijia

/-- Go `math.Round`: the nearest integer, rounding half away from zero
(`math.Round(0.5) = 1`, `math.Round(-0.5) = -1`). -/
noncomputable def goRound (x : ℝ) : ℝ :=
  if 0 ≤ x then ((⌊x + 1/2⌋ : ℤ) : ℝ) else ((⌈x - 1/2⌉ : ℤ) : ℝ)

/-- The dew point before rounding: body of `calcDewPoint` (main.go 51-61).
`const1`/`const2` are selected by the sign of `temp` (main.go 53-56), the
humidity is divided by 100 and passed through `math.Log` (main.go 58-59). -/
noncomputable def dewPointRaw (hum temp : ℝ) : ℝ :=
  let const1 : ℝ := if temp < 0 then 272.186 else 241.2
  let const2 : ℝ := if temp < 0 then 22.4433 else 17.5043
  let hum2 := Real.log (hum / 100.0)
  let abs_temp := temp / (const1 + temp)
  (const1 * hum2 + (const1 * const2) * abs_temp) / (const2 - hum2 - const2 * abs_temp)

/-- `calcDewPoint` (main.go 50-64): the raw dew point rounded at the tenths
digit by `math.Round(point*10)/10` (main.go 62). -/
noncomputable def calcDewPoint (hum temp : ℝ) : ℝ :=
  goRound (dewPointRaw hum temp * 10) / 10

/-- The absolute humidity before rounding (main.go 67). -/
noncomputable def absHumRaw (hum temp : ℝ) : ℝ :=
  13.2471 * Real.exp (17.67 * temp / (temp + 243.5)) * hum / (273.15 + temp)

/-- `calcAbsHum` (main.go 66-70): the code computes `math.Round(abs*10) / 1`
(main.go 68) - note the division by `1`, not by `10`. -/
noncomputable def calcAbsHum (hum temp : ℝ) : ℝ :=
  goRound (absHumRaw hum temp * 10) / 1

/-- `plural` (main.go 72-78). -/
def plural (number : Int) (part : String) : String :=
  if number = 1 then "" else part

/-- The battery icon chain of `loadSensorData` (main.go 107-121): first
matching band wins; the initial `fa-battery-exclamation` is dead because the
chain ends in an unconditional `else`. -/
def batteryIcon (level : Int) : String :=
  if level < 5 then "fa-battery-empty red"
  else if level < 15 then "fa-battery-empty yellow"
  else if level < 35 then "fa-battery-quarter"
  else if level < 65 then "fa-battery-half"
  else if level < 85 then "fa-battery-three-quarters"
  else "fa-battery-full green"

/-- The relative-time banding of `loadSensorData` (main.go 134-149),
as a function of `diff_seconds = time.Now().Unix() - timestamp.Unix()`.
Go `/` on integers truncates toward zero, hence `Int.tdiv`; the format
strings `"%d Minute%s ago"` etc. become the corresponding concatenations. -/
def timeRelative (diff_seconds : Int) : String :=
  let diff_minutes := diff_seconds.tdiv 60
  let diff_hours := diff_minutes.tdiv 60
  let diff_days := diff_hours.tdiv 24
  if diff_seconds < 60 then "Up to date"
  else if diff_minutes < 60 then
    toString diff_minutes ++ " Minute" ++ plural diff_minutes "s" ++ " ago"
  else if diff_hours < 24 then
    toString diff_hours ++ " Hour" ++ plural diff_hours "s" ++ " ago"
  else
    toString diff_days ++ " Day" ++ plural diff_days "s"

/-- Rounding bound used for the dew-point estimate: `goRound` moves a value
by at most one half. -/
theorem goRound_le_add_half (x : ℝ) : goRound x ≤ x + 1/2 := by
  rw [goRound]
  split
  · exact Int.floor_le _
  · have h := Int.ceil_lt_add_one (x - 1/2)
    linarith

/-- `goRound` always returns (the cast of) an integer. -/
theorem goRound_exists_int (x : ℝ) : ∃ n : ℤ, goRound x = (n : ℝ) := by
  rw [goRound]
  split
  · exact ⟨_, rfl⟩
  · exact ⟨_, rfl⟩

/-- One row of the `sensor_data` query in `loadSensorData` (main.go 89-100).
`temp` and `humidity` are stored scaled by 100; both are scanned into
`float64` fields and, being integer-valued, are modelled as `ℚ`.
`parsedAt` models the outcome of the Go standard-library call
`time.Parse(time.RFC3339, timestamp)` (main.go 132), which is external to
this repository: `some t` is the parsed Unix time in seconds, `none` a
parse error. -/
structure RawSample where
  temp : ℚ
  humidity : ℚ
  battery_mv : Int
  battery_level : Int
  timestamp : String
  parsedAt : Option Int

/-- The `SensorData` struct (main.go 19-32). The two derived `float64`
fields are embedded as `ℝ`, the normalized readings as `ℚ`. -/
structure SensorData where
  Temp : ℚ
  Humidity : ℚ
  BatteryMV : Int
  BatteryLevel : Int
  Timestamp : String
  DewPoint : ℝ
  AbsHum : ℝ
  BatteryIcon : String
  DewPointText : String
  Mac : String
  Loc : String
  TimeRelative : String

/-- One entry of the global `configMap` (main.go 34-41), together with the
result of the device's most-recent-row query: `fetch = none` models a
`QueryRow(...).Scan` error (store unreachable or empty, main.go 101). -/
structure DeviceConfig where
  mac : String
  loc : String
  fetch : Option RawSample

/-- The zero-valued `SensorData` fields a failed `Scan` leaves behind
(`var sensor SensorData`, main.go 86): Go zero values, and the empty
timestamp string does not parse. -/
def zeroSample : RawSample :=
  { temp := 0, humidity := 0, battery_mv := 0, battery_level := 0,
    timestamp := "", parsedAt := none }

/-- The body of the `http.Error` call on a fetch failure (main.go 102):
a constant message that does not name the device. -/
def dataLoadError : String := "Data could not be loaded"

/-- One iteration of the device loop in `loadSensorData` (main.go 84-155):
normalize `humidity` and `temp` (main.go 104-105), classify the battery
(107-121), derive dew point and absolute humidity (123-124), pick the
dew-point label (125-129), and compute the freshness label (131-153),
falling back to the raw timestamp string when parsing fails.  The `Bool`
records whether the iteration wrote the `http.Error` response (main.go
101-103); the loop continues either way, with zero-valued fields. -/
noncomputable def processDevice (now : Int) (mac loc : String)
    (fetched : Option RawSample) : SensorData × Bool :=
  let raw := fetched.getD zeroSample
  let humidity := raw.humidity / 100
  let temp := raw.temp / 100
  ({ Mac := mac
     Loc := loc
     Temp := temp
     Humidity := humidity
     BatteryMV := raw.battery_mv
     BatteryLevel := raw.battery_level
     Timestamp := raw.timestamp
     DewPoint := calcDewPoint (humidity : ℝ) (temp : ℝ)
     AbsHum := calcAbsHum (humidity : ℝ) (temp : ℝ)
     BatteryIcon := batteryIcon raw.battery_level
     DewPointText := if temp < 0 then "Freezing point" else "Dew point"
     TimeRelative :=
       match raw.parsedAt with
       | some ts => timeRelative (now - ts)
       | none => raw.timestamp },
   fetched.isNone)

/-- The ordering `sort.Slice` uses (main.go 158-160): Go string `<` is
byte-lexicographic; for the MAC strings here this is the lexicographic
order on the underlying character list. -/
def macLE (a b : SensorData) : Prop := a.Mac.data ≤ b.Mac.data

instance : DecidableRel macLE :=
  fun a b => inferInstanceAs (Decidable (a.Mac.data ≤ b.Mac.data))

instance : IsTotal SensorData macLE :=
  ⟨fun a b => le_total a.Mac.data b.Mac.data⟩

instance : IsTrans SensorData macLE :=
  ⟨fun _ _ _ => le_trans⟩

/-- The `loadSensorData` handler (main.go 80-168) as a function of the
per-device fetch results (the loop order stands for Go's map iteration
order) and of `time.Now().Unix()`.  Returns the slice handed to the
template after the `sort.Slice` (main.go 158-160), and the list of
`http.Error` messages written along the way (main.go 102).  `sort.Slice`
is modelled by `List.insertionSort`; the MAC keys are map keys, hence
distinct, so any sort with this ordering yields the same slice. -/
noncomputable def loadSensorData (now : Int) (devices : List DeviceConfig) :
    List SensorData × List String :=
  let processed := devices.map (fun d => processDevice now d.mac d.loc d.fetch)
  (List.insertionSort macLE (processed.map Prod.fst),
   (processed.filter (fun p => p.snd)).map (fun _ => dataLoadError))

/-- The `Mac` field is taken from the config map key (main.go 87). -/
theorem processDevice_fst_Mac (now : Int) (mac loc : String)
    (fetched : Option RawSample) :
    (processDevice now mac loc fetched).1.Mac = mac := rfl

/-- The error flag of an iteration is exactly a failed fetch. -/
theorem processDevice_snd (now : Int) (mac loc : String)
    (fetched : Option RawSample) :
    (processDevice now mac loc fetched).2 = fetched.isNone := rfl

/-- The rendered slice always has one record per configured device. -/
theorem loadSensorData_length (now : Int) (devices : List DeviceConfig) :
    ((loadSensorData now devices).1).length = devices.length := by
  simp [loadSensorData, List.length_insertionSort]

/-- No error response is written exactly when every fetch succeeded. -/
theorem loadSensorData_errors_nil (now : Int) (devices : List DeviceConfig) :
    (loadSensorData now devices).2 = [] ↔ ∀ d ∈ devices, d.fetch.isSome := by
  simp [loadSensorData, List.filter_eq_nil_iff, processDevice_snd,
    Option.isNone_iff_eq_none, Option.isSome_iff_exists]

/-- Every error response written is the constant `dataLoadError` text. -/
theorem loadSensorData_errors_const (now : Int) (devices : List DeviceConfig) :
    ∀ e ∈ (loadSensorData now devices).2, e = dataLoadError := by
  simp [loadSensorData]

/-- The rendered slice is sorted by MAC. -/
theorem loadSensorData_sorted (now : Int) (devices : List DeviceConfig) :
    List.Sorted macLE (loadSensorData now devices).1 :=
  List.sorted_insertionSort macLE _

/-- The MACs of the rendered slice are a permutation of the configured
MACs (in particular nothing is dropped or invented by the sort). -/
theorem loadSensorData_macs_perm (now : Int) (devices : List DeviceConfig) :
    ((loadSensorData now devices).1.map (fun s => s.Mac)).Perm
      (devices.map (fun d => d.mac)) := by
  have h1 : ((loadSensorData now devices).1.map (fun s => s.Mac)).Perm
      (((devices.map (fun d => processDevice now d.mac d.loc d.fetch)).map
        Prod.fst).map (fun s => s.Mac)) :=
    (List.perm_insertionSort macLE _).map _
  have h2 : ((devices.map (fun d => processDevice now d.mac d.loc d.fetch)).map
      Prod.fst).map (fun s => s.Mac) = devices.map (fun d => d.mac) := by
    simp [List.map_map]
    exact fun a _ => rfl
  exact h2 ▸ h1

/-- The sorted slice, projected to the underlying character lists of the
MACs, is sorted for the lexicographic list order. -/
theorem loadSensorData_sorted_data (now : Int) (devices : List DeviceConfig) :
    List.Sorted (fun a b => a ≤ b)
      ((loadSensorData now devices).1.map (fun s => s.Mac.data)) :=
  List.Pairwise.map _ (fun _ _ h => h) (loadSensorData_sorted now devices)

/-- The dew-point computation as the spec words it (section 4.2): constants
`(a, b)` selected by the sign of `t`, `hn = ln(h/100.0)`, `r = t/(a+t)`,
`(a*hn + a*b*r) / (b - hn - b*r)`, rounded at the tenths digit by
`round(x*10)/10` with round-half-away-from-zero.  To be compared against
`calcDewPoint`, which is translated from the code. -/
noncomputable def dewPointSpec (h t : ℝ) : ℝ :=
  let a : ℝ := if t < 0 then 272.186 else 241.2
  let b : ℝ := if t < 0 then 22.4433 else 17.5043
  let hn := Real.log (h / 100.0)
  let r := t / (a + t)
  goRound (((a * hn + a * b * r) / (b - hn - b * r)) * 10) / 10

/-- C1: for every humidity `h > 0` and temperature `t`, the code's dew point
equals the spec formula - constants selected by the sign of `t`, value
`(a*hn + a*b*r)/(b - hn - b*r)` with `hn = ln(h/100)` and `r = t/(a+t)`,
rounded at the tenths digit with round-half-away-from-zero (and `goRound`
does round halves away from zero: `goRound (1/2) = 1`,
`goRound (-(1/2)) = -1`). -/
theorem C1_calcDewPoint_matches_spec (h t : ℝ) (hh : 0 < h) :
    calcDewPoint h t = dewPointSpec h t ∧
    goRound (1/2) = 1 ∧ goRound (-(1/2)) = -1 := by
  refine ⟨rfl, ?_, ?_⟩
  · rw [goRound, if_pos (by norm_num)]
    norm_num
  · rw [goRound, if_neg (by norm_num)]
    have hc : ⌈(-(1/2) - 1/2 : ℝ)⌉ = -1 := by
      rw [Int.ceil_eq_iff] <;> norm_num
    rw [hc]
    norm_num

/-- C1 witness at `h = 50`, `t = 20`. -/
theorem C1_witness :
    calcDewPoint 50 20 = dewPointSpec 50 20 ∧
    goRound (1/2) = 1 ∧ goRound (-(1/2)) = -1 :=
  C1_calcDewPoint_matches_spec 50 20 (by norm_num)

/-- The battery classes the spec names (sections 3 and 4.2). -/
inductive BatteryClass
  | CRITICAL
  | LOW
  | QUARTER
  | HALF
  | THREE_QUARTER
  | FULL
  deriving DecidableEq, Fintype

/-- The icon string the code assigns where the spec names each class
(main.go 108-121). -/
def iconOfClass : BatteryClass → String
  | .CRITICAL => "fa-battery-empty red"
  | .LOW => "fa-battery-empty yellow"
  | .QUARTER => "fa-battery-quarter"
  | .HALF => "fa-battery-half"
  | .THREE_QUARTER => "fa-battery-three-quarters"
  | .FULL => "fa-battery-full green"

/-- The battery banding exactly as claim C4 states it: bands evaluated
low-to-high, first match wins.  Total by construction. -/
def specBatteryClass (p : Int) : BatteryClass :=
  if p < 5 then .CRITICAL
  else if p < 15 then .LOW
  else if p < 35 then .QUARTER
  else if p < 65 then .HALF
  else if p < 85 then .THREE_QUARTER
  else .FULL

/-- C4: on every integer percent in `[0, 100]` the code's battery icon is
exactly the icon of the class the claim's banding assigns (so the banding is
total and, the six icons being pairwise distinct, each percent gets exactly
one class), with the claimed boundary values `4 → CRITICAL`, `5 → LOW`,
`34 → QUARTER`, `35 → HALF`. -/
theorem C4_battery_partition (p : Int) (h0 : 0 ≤ p) (h1 : p ≤ 100) :
    batteryIcon p = iconOfClass (specBatteryClass p) ∧
    Function.Injective iconOfClass ∧
    specBatteryClass 4 = .CRITICAL ∧ specBatteryClass 5 = .LOW ∧
    specBatteryClass 34 = .QUARTER ∧ specBatteryClass 35 = .HALF := by
  refine ⟨?_, by decide, by decide, by decide, by decide, by decide⟩
  rw [batteryIcon, specBatteryClass]
  split_ifs <;> rfl

/-- C4 witness at percent 35. -/
theorem C4_witness :
    batteryIcon 35 = iconOfClass (specBatteryClass 35) ∧
    Function.Injective iconOfClass ∧
    specBatteryClass 4 = .CRITICAL ∧ specBatteryClass 5 = .LOW ∧
    specBatteryClass 34 = .QUARTER ∧ specBatteryClass 35 = .HALF :=
  C4_battery_partition 35 (by norm_num) (by norm_num)

/-- C5: for every non-negative `elapsedSeconds` the freshness label follows
the claimed banding - `< 60` is "Up to date", `< 3600` is minutes with
`N = s/60` truncated, `< 86400` is hours with `N = s/3600`, else days with
`N = s/86400` and no trailing "ago" - and the unit word is pluralized
unless `N = 1`.  (`s / 60` here is Euclidean division, which agrees with
Go's truncated division on non-negative values.) -/
theorem C5_freshness_banding (s : Int) (hs : 0 ≤ s) :
    (s < 60 → timeRelative s = "Up to date") ∧
    (60 ≤ s → s < 3600 → timeRelative s =
      toString (s / 60) ++ " Minute" ++ (if s / 60 = 1 then "" else "s") ++ " ago") ∧
    (3600 ≤ s → s < 86400 → timeRelative s =
      toString (s / 3600) ++ " Hour" ++ (if s / 3600 = 1 then "" else "s") ++ " ago") ∧
    (86400 ≤ s → timeRelative s =
      toString (s / 86400) ++ " Day" ++ (if s / 86400 = 1 then "" else "s")) := by
  have h2 : (0:Int) ≤ s / 60 := Int.ediv_nonneg hs (by norm_num)
  have h3 : (0:Int) ≤ s / 3600 := Int.ediv_nonneg hs (by norm_num)
  have e1 : s.tdiv 60 = s / 60 := Int.tdiv_eq_ediv hs (by norm_num)
  have e2 : (s / 60).tdiv 60 = s / 3600 := by
    rw [Int.tdiv_eq_ediv h2 (by norm_num)]
    omega
  have e3 : (s / 3600).tdiv 24 = s / 86400 := by
    rw [Int.tdiv_eq_ediv h3 (by norm_num)]
    omega
  refine ⟨fun hlt => ?_, fun hge hlt => ?_, fun hge hlt => ?_, fun hge => ?_⟩ <;>
    simp only [timeRelative, plural, e1, e2, e3]
  · rw [if_pos hlt]
  · rw [if_neg (by omega), if_pos (by omega)]
  · rw [if_neg (by omega), if_neg (by omega), if_pos (by omega)]
  · rw [if_neg (by omega), if_neg (by omega), if_neg (by omega)]

/-- C5 witness at 120 seconds: "2 Minutes ago". -/
theorem C5_witness :
    timeRelative 120 = toString ((120:Int) / 60) ++ " Minute" ++
      (if (120:Int) / 60 = 1 then "" else "s") ++ " ago" ∧
    timeRelative 120 = "2 Minutes ago" := by
  have h := (C5_freshness_banding 120 (by norm_num)).2.1 (by norm_num) (by norm_num)
  exact ⟨h, by rw [h]; rfl⟩

/-- C9: when the timestamp does not parse, the freshness label is the raw
timestamp string passed through verbatim, and the iteration signals no
failure (the error flag is only ever set by a failed fetch). -/
theorem C9_unparsable_timestamp_passthrough (now : Int) (mac loc : String)
    (raw : RawSample) (hp : raw.parsedAt = none) :
    (processDevice now mac loc (some raw)).1.TimeRelative = raw.timestamp ∧
    (processDevice now mac loc (some raw)).2 = false := by
  refine ⟨?_, rfl⟩
  simp [processDevice, hp]

/-- A sample whose timestamp string is unparsable. -/
def badTsSample : RawSample :=
  { temp := 2150, humidity := 4500, battery_mv := 2900, battery_level := 80,
    timestamp := "not-a-timestamp", parsedAt := none }

/-- C9 witness: the unparsable string comes back verbatim, no failure. -/
theorem C9_witness :
    (processDevice 0 "aa" "Room" (some badTsSample)).1.TimeRelative = "not-a-timestamp" ∧
    (processDevice 0 "aa" "Room" (some badTsSample)).2 = false :=
  C9_unparsable_timestamp_passthrough 0 "aa" "Room" badTsSample rfl

/-- C10: a parseable timestamp in the future of `now` (negative elapsed
seconds) lands in the first band - the `< 60` test on the signed difference
catches every negative value - so the label is exactly "Up to date". -/
theorem C10_future_timestamp_up_to_date (now ts : Int) (mac loc : String)
    (raw : RawSample) (hp : raw.parsedAt = some ts) (hf : now < ts) :
    (processDevice now mac loc (some raw)).1.TimeRelative = "Up to date" := by
  have h1 : (processDevice now mac loc (some raw)).1.TimeRelative
      = timeRelative (now - ts) := by
    simp [processDevice, hp]
  rw [h1]
  simp only [timeRelative]
  rw [if_pos (by omega)]

/-- A sample dated five minutes into the future of `now = 0`. -/
def futureSample : RawSample :=
  { temp := 2150, humidity := 4500, battery_mv := 2900, battery_level := 80,
    timestamp := "1970-01-01T00:05:00Z", parsedAt := some 300 }

/-- C10 witness: elapsed is -300 seconds and the label is "Up to date". -/
theorem C10_witness :
    (processDevice 0 "aa" "Room" (some futureSample)).1.TimeRelative = "Up to date" :=
  C10_future_timestamp_up_to_date 0 300 "aa" "Room" futureSample rfl (by norm_num)

/-- A successfully fetched sample used in the concrete runs below. -/
def sampleOk : RawSample :=
  { temp := 2150, humidity := 4500, battery_mv := 2900, battery_level := 80,
    timestamp := "2024-06-01T12:00:00Z", parsedAt := some 1717243200 }

/-- C6: the rendered slice is sorted by MAC ascending (lexicographic order
on the character lists, which for these ASCII ids is the byte order), its
MACs are exactly the configured MACs, and whenever the configured MACs are
any permutation of `["b1", "a2", "c0"]` - any iteration/completion order -
the output order is `["a2", "b1", "c0"]`. -/
theorem C6_result_sorted_by_mac (now : Int) (devices : List DeviceConfig) :
    List.Sorted macLE (loadSensorData now devices).1 ∧
    ((loadSensorData now devices).1.map (fun s => s.Mac)).Perm
      (devices.map (fun d => d.mac)) ∧
    ((devices.map (fun d => d.mac)).Perm ["b1", "a2", "c0"] →
      (loadSensorData now devices).1.map (fun s => s.Mac) = ["a2", "b1", "c0"]) := by
  refine ⟨loadSensorData_sorted now devices, loadSensorData_macs_perm now devices, ?_⟩
  intro hperm
  have hp : (((loadSensorData now devices).1.map (fun s => s.Mac)).map
      (fun m => m.data)).Perm
        ((["a2", "b1", "c0"] : List String).map (fun m => m.data)) :=
    (((loadSensorData_macs_perm now devices).trans hperm).trans (by decide)).map _
  have hmap : ((loadSensorData now devices).1.map (fun s => s.Mac)).map
      (fun m => m.data) = (loadSensorData now devices).1.map (fun s => s.Mac.data) := by
    simp [List.map_map]
  have hsorted2 : List.Sorted (fun a b => a ≤ b)
      ((["a2", "b1", "c0"] : List String).map (fun m => m.data)) := by decide
  have heq : ((loadSensorData now devices).1.map (fun s => s.Mac)).map
      (fun m => m.data) = (["a2", "b1", "c0"] : List String).map (fun m => m.data) := by
    refine List.eq_of_perm_of_sorted hp ?_ hsorted2
    rw [hmap]
    exact loadSensorData_sorted_data now devices
  have hinj : Function.Injective (fun m : String => m.data) := by
    intro a b hab
    exact String.toList_inj.mp hab
  exact List.map_injective_iff.mpr hinj heq

/-- The devices of the C6 example, iterated in the order b1, a2, c0. -/
def exampleDevices : List DeviceConfig :=
  [{ mac := "b1", loc := "Bedroom", fetch := some sampleOk },
   { mac := "a2", loc := "Attic", fetch := some sampleOk },
   { mac := "c0", loc := "Cellar", fetch := some sampleOk }]

/-- C6 witness: ids fetched in order b1, a2, c0 come out a2, b1, c0. -/
theorem C6_witness :
    (loadSensorData 0 exampleDevices).1.map (fun s => s.Mac) = ["a2", "b1", "c0"] :=
  (C6_result_sorted_by_mac 0 exampleDevices).2.2 (by decide)

/-- C3 counterexample: with the fetch for device "aa" failing and the one
for "bb" succeeding, the invocation does not abort - it still renders one
record per configured device (the failed one with zero-valued fields), and
the one error response written is the constant "Data could not be loaded",
which does not name the failing device. -/
theorem C3_counterexample :
    ((loadSensorData 0 [⟨"aa", "Room", none⟩,
        ⟨"bb", "Kitchen", some sampleOk⟩]).1).length = 2 ∧
    (loadSensorData 0 [⟨"aa", "Room", none⟩,
        ⟨"bb", "Kitchen", some sampleOk⟩]).2 = ["Data could not be loaded"] :=
  ⟨by decide, by decide⟩

/-- C3 amended: a failed fetch writes an HTTP error response whose text is a
constant that names no device, and the run does not abort: exactly one
record per configured device is always rendered, failures included; no
error response is written exactly when every fetch succeeded. -/
theorem C3_no_abort_one_record_per_device (now : Int) (devices : List DeviceConfig) :
    ((loadSensorData now devices).1).length = devices.length ∧
    ((loadSensorData now devices).2 = [] ↔ ∀ d ∈ devices, d.fetch.isSome) ∧
    ∀ e ∈ (loadSensorData now devices).2, e = dataLoadError :=
  ⟨loadSensorData_length now devices, loadSensorData_errors_nil now devices,
   loadSensorData_errors_const now devices⟩

/-- A fetched sample reporting humidity 0 (raw integer 0). -/
def zeroHumSample : RawSample :=
  { temp := 2100, humidity := 0, battery_mv := 2900, battery_level := 80,
    timestamp := "2024-06-01T12:00:00Z", parsedAt := some 1717243200 }

/-- C8 counterexample: a sample with humidity 0 does not make the
derivation fail - the run still renders a record for the device and writes
no error at all (there is no `DerivationError` path in the code; in Go the
dew point is then computed from `math.Log(0) = -Inf`). -/
theorem C8_counterexample :
    ((loadSensorData 0 [⟨"aa", "Room", some zeroHumSample⟩]).1).length = 1 ∧
    (loadSensorData 0 [⟨"aa", "Room", some zeroHumSample⟩]).2 = [] ∧
    (processDevice 0 "aa" "Room" (some zeroHumSample)).1.Humidity = 0 :=
  ⟨by decide, by decide, by simp [processDevice, zeroHumSample]⟩

/-- C8 amended: the code has no humidity domain check - for any fetched
sample with humidity at most 0 the derivation still produces a record (the
error flag stays false, one record is rendered and no error is written);
derivation never fails. -/
theorem C8_no_derivation_error (now : Int) (mac loc : String) (raw : RawSample)
    (hh : raw.humidity ≤ 0) :
    (processDevice now mac loc (some raw)).2 = false ∧
    ((loadSensorData now [⟨mac, loc, some raw⟩]).1).length = 1 ∧
    (loadSensorData now [⟨mac, loc, some raw⟩]).2 = [] := by
  refine ⟨rfl, loadSensorData_length now _, ?_⟩
  rw [loadSensorData_errors_nil]
  intro d hd
  rw [List.mem_singleton] at hd
  subst hd
  rfl

/-- C8 witness at humidity 0. -/
theorem C8_witness :
    (processDevice 0 "aa" "Room" (some zeroHumSample)).2 = false ∧
    ((loadSensorData 0 [⟨"aa", "Room", some zeroHumSample⟩]).1).length = 1 ∧
    (loadSensorData 0 [⟨"aa", "Room", some zeroHumSample⟩]).2 = [] :=
  C8_no_derivation_error 0 "aa" "Room" zeroHumSample (by decide)

/-- The absolute humidity as claim C2 states it: the formula value rounded
to the nearest whole number.  To be compared against `calcAbsHum`, which is
translated from the code. -/
noncomputable def absHumSpec (h t : ℝ) : ℝ :=
  goRound (13.2471 * Real.exp (17.67 * t / (t + 243.5)) * h / (273.15 + t))

/-- C2 counterexample: at `h = 50`, `t = 0` the formula value is about
2.425, so rounding to the nearest whole number gives 2, but the code's
`math.Round(abs*10) / 1` returns 24: the division by 1 (instead of 10)
leaves the result ten times the one-decimal rounding, not the value rounded
to the nearest unit. -/
theorem C2_counterexample :
    calcAbsHum 50 0 = 24 ∧ absHumSpec 50 0 = 2 ∧
    calcAbsHum 50 0 ≠ absHumSpec 50 0 := by
  have hexp : Real.exp (17.67 * 0 / (0 + 243.5)) = 1 := by
    norm_num
  have hx : absHumRaw 50 0 * 10 = 66235.5 / 2731.5 := by
    rw [absHumRaw, hexp]
    norm_num
  have hfloor : (⌊(66235.5 / 2731.5 : ℝ) + 1/2⌋ : ℤ) = 24 := by
    rw [Int.floor_eq_iff]
    norm_num
  have h1 : calcAbsHum 50 0 = 24 := by
    rw [calcAbsHum, hx, goRound, if_pos (by norm_num), hfloor]
    norm_num
  have hy : 13.2471 * Real.exp (17.67 * 0 / (0 + 243.5)) * 50 / (273.15 + 0)
      = 6623.55 / 2731.5 := by
    rw [hexp]
    norm_num
  have hfloor2 : (⌊(6623.55 / 2731.5 : ℝ) + 1/2⌋ : ℤ) = 2 := by
    rw [Int.floor_eq_iff]
    norm_num
  have h2 : absHumSpec 50 0 = 2 := by
    rw [absHumSpec, hy, goRound, if_pos (by norm_num), hfloor2]
    norm_num
  exact ⟨h1, h2, by rw [h1, h2]; norm_num⟩

/-- C2 amended: the returned absolute humidity is `round(x*10)` - ten times
the one-decimal rounding of the formula value (an integer, as the claim's
"always an integer" part says), not the formula value rounded to the
nearest whole number. -/
theorem C2_absHum_is_round_times_ten (h t : ℝ) :
    calcAbsHum h t = goRound (absHumRaw h t * 10) ∧
    ∃ n : ℤ, calcAbsHum h t = (n : ℝ) := by
  constructor
  · rw [calcAbsHum, div_one]
  · rw [calcAbsHum, div_one]
    exact goRound_exists_int _

/-- Core dew-point inequality: for positive constants, `t > -a` and
non-positive `hn`, the Magnus expression is at most `t`. -/
theorem dewPointCore_le (a b t hn : ℝ) (ha : 0 < a) (hb : 0 < b)
    (hat : 0 < a + t) (hhn : hn ≤ 0) :
    (a * hn + a * b * (t / (a + t))) / (b - hn - b * (t / (a + t))) ≤ t := by
  have hne : a + t ≠ 0 := ne_of_gt hat
  have hfrac : b - b * (t / (a + t)) = b * a / (a + t) := by
    field_simp
    ring
  have hpos : 0 < b * a / (a + t) := div_pos (mul_pos hb ha) hat
  have hden : 0 < b - hn - b * (t / (a + t)) := by linarith
  rw [div_le_iff₀ hden]
  have key : t * (b - hn - b * (t / (a + t))) - (a * hn + a * b * (t / (a + t)))
      = (-hn) * (a + t) := by
    field_simp
    ring
  have hprod : 0 ≤ (-hn) * (a + t) :=
    mul_nonneg (neg_nonneg.mpr hhn) (le_of_lt hat)
  linarith

/-- The unrounded dew point never exceeds the temperature, for humidity in
`(0, 100]` and any temperature above -200 degrees (covering both constant
branches). -/
theorem dewPointRaw_le (h t : ℝ) (h0 : 0 < h) (h100 : h ≤ 100) (ht : -200 < t) :
    dewPointRaw h t ≤ t := by
  have hhn : Real.log (h / 100.0) ≤ 0 := by
    have h1 : h / 100.0 = h / 100 := by norm_num
    rw [h1]
    refine Real.log_nonpos (by positivity) ?_
    rw [div_le_one (by norm_num)]
    exact h100
  rw [dewPointRaw]
  by_cases hlt : t < 0
  · simp only [if_pos hlt]
    exact dewPointCore_le 272.186 22.4433 t _ (by norm_num) (by norm_num)
      (by linarith) hhn
  · simp only [if_neg hlt]
    exact dewPointCore_le 241.2 17.5043 t _ (by norm_num) (by norm_num)
      (by linarith) hhn

/-- C7 amended: for humidity in `(0, 100]` and temperature above -200
degrees, the dew point before rounding is at most `t`; the returned value
is at most `t + 0.05` (the final half-up rounding at the tenths digit can
add up to 0.05), and ten times the returned value is an integer (exactly
one decimal place). -/
theorem C7_dew_point_le_temp (h t : ℝ) (h0 : 0 < h) (h100 : h ≤ 100)
    (ht : -200 < t) :
    dewPointRaw h t ≤ t ∧ calcDewPoint h t ≤ t + 1/20 ∧
    ∃ n : ℤ, calcDewPoint h t * 10 = (n : ℝ) := by
  have hraw := dewPointRaw_le h t h0 h100 ht
  refine ⟨hraw, ?_, ?_⟩
  · have hg := goRound_le_add_half (dewPointRaw h t * 10)
    rw [calcDewPoint]
    linarith
  · obtain ⟨n, hn⟩ := goRound_exists_int (dewPointRaw h t * 10)
    refine ⟨n, ?_⟩
    rw [calcDewPoint, hn]
    exact div_mul_cancel₀ _ (by norm_num)

/-- C7 witness at `h = 50`, `t = 20`. -/
theorem C7_witness :
    dewPointRaw 50 20 ≤ 20 ∧ calcDewPoint 50 20 ≤ 20 + 1/20 ∧
    ∃ n : ℤ, calcDewPoint 50 20 * 10 = (n : ℝ) :=
  C7_dew_point_le_temp 50 20 (by norm_num) (by norm_num) (by norm_num)

/-- C7 counterexample: at `h = 100` (saturated air, within `(0, 100]`) and
`t = 0.06` degrees (a realistic temperature) the unrounded dew point equals
`t = 0.06`, and the final rounding lifts the returned value to `0.1`, so
`dewPointC(h, t) ≤ t` fails as stated. -/
theorem C7_counterexample :
    (0:ℝ) < 100 ∧ (100:ℝ) ≤ 100 ∧
    calcDewPoint 100 (6/100) = 1/10 ∧ ¬ calcDewPoint 100 (6/100) ≤ 6/100 := by
  have hlog : Real.log ((100:ℝ) / 100.0) = 0 := by
    norm_num
  have hraw : dewPointRaw 100 (6/100) = 6/100 := by
    rw [dewPointRaw]
    simp only [if_neg (show ¬ (6/100:ℝ) < 0 by norm_num)]
    rw [hlog, div_eq_iff (by norm_num)]
    norm_num
  have hfloor : (⌊(6/100:ℝ) * 10 + 1/2⌋ : ℤ) = 1 := by
    rw [Int.floor_eq_iff]
    norm_num
  have hval : calcDewPoint 100 (6/100) = 1/10 := by
    rw [calcDewPoint, hraw, goRound, if_pos (by norm_num), hfloor]
    norm_num
  exact ⟨by norm_num, le_refl _, hval, by rw [hval]; norm_num⟩

end Mijia
